import Mathlib

/-!
Shallow embedding of the Food-server HTTP backend (two source variants:
`src/index.js`, embedded in namespace `IndexJs`, and `src/unnamed/part_000`,
embedded in namespace `Part000`).

Modelling conventions:
* MongoDB collections are association lists `List (String × doc)` keyed by the
  document id string; `insertOne` appends a pair with a caller-supplied fresh
  id (Mongo generates the id), `findOne` on an id is `List.find?` on the key,
  `deleteOne` on an id is `List.eraseP` on the key, and the returned
  `deletedCount` is 1 when a matching document exists and 0 otherwise.
* `new ObjectId(s)` throws unless `s` is a 24-character hex string; handlers
  whose source has no try/catch return `Except JsError …` so that a thrown
  error that escapes the handler is visible as `.error`; handlers wrapped in
  try/catch are total and map the thrown error to the 500 response of their
  catch block.
* JavaScript field access on a request body is `Option` (`none` = absent /
  undefined); the truthiness tests `!food.name` etc. are `truthyStr` /
  `truthyNum` (false for absent, empty string, or 0, as in JS).
* `jwt.verify` is an abstract parameter `verify : String → Option Claims`
  (`none` = verification error); `authHeader.split(" ")[1]` is `bearerToken`.
* Server time `new Date()` is an abstract `now : Nat` parameter.
-/

namespace FoodServer

/-- Equality of `Except` values is decidable when it is on both sides. -/
instance {ε α : Type} [DecidableEq ε] [DecidableEq α] :
    DecidableEq (Except ε α) := fun x y =>
  match x, y with
  | .error e, .error f =>
    if h : e = f then .isTrue (by rw [h])
    else .isFalse (fun c => h (by injection c))
  | .error _, .ok _ => .isFalse (fun c => Except.noConfusion c)
  | .ok _, .error _ => .isFalse (fun c => Except.noConfusion c)
  | .ok a, .ok b =>
    if h : a = b then .isTrue (by rw [h])
    else .isFalse (fun c => h (by injection c))

/-- One hex digit, as accepted by the MongoDB driver's ObjectId parser. -/
def isHexDigit (c : Char) : Bool :=
  (('0' ≤ c) && (c ≤ '9')) || (('a' ≤ c) && (c ≤ 'f')) || (('A' ≤ c) && (c ≤ 'F'))

/-- `new ObjectId(s)` succeeds exactly on 24-character hex strings. -/
def validObjectId (s : String) : Bool :=
  s.data.length == 24 && s.data.all isHexDigit

/-- A JavaScript error thrown inside a handler. -/
inductive JsError where
  | invalidObjectId (input : String)
  | typeError (msg : String)
deriving Repr, DecidableEq

/-- `new ObjectId(s)`: the id itself on success, a thrown error otherwise. -/
def parseObjectId (s : String) : Except JsError String :=
  if validObjectId s then .ok s else .error (.invalidObjectId s)

/-- JS truthiness of an optional string field (undefined and "" are falsy). -/
def truthyStr : Option String → Bool
  | some s => s != ""
  | none => false

/-- JS truthiness of an optional numeric field (undefined and 0 are falsy). -/
def truthyNum : Option Int → Bool
  | some n => n != 0
  | none => false

/-- `s.toLowerCase()`, written structurally over the character list. -/
def toLowerStr (s : String) : String :=
  String.mk (s.data.map Char.toLower)

/-- `s.split(" ")` on the character list, as in JavaScript. -/
def splitChars : List Char → List (List Char)
  | [] => [[]]
  | c :: cs =>
    let rest := splitChars cs
    if c == ' ' then [] :: rest
    else
      match rest with
      | r :: rs => (c :: r) :: rs
      | [] => [[c]]

/-- `authHeader.split(" ")[1]`: `none` models the JS `undefined` (which then
makes `jwt.verify` fail). -/
def bearerToken (h : String) : Option String :=
  match splitChars h.data with
  | _ :: t :: _ => some (String.mk t)
  | _ => none

/-- A stored user document: email plus optional role field. -/
structure User where
  email : String
  role : Option String
deriving Repr, DecidableEq

/-- Decoded JWT claims (the handlers only use the email claim). -/
structure Claims where
  email : String
deriving Repr, DecidableEq

/-- A food document body as the handlers see it. -/
structure Food where
  name : Option String
  price : Option Int
  image : Option String
  category : Option String
deriving Repr, DecidableEq

/-- An order document body as the handlers see it. -/
structure Order where
  buyerEmail : String
  items : List String
  createdAt : Option Nat
deriving Repr, DecidableEq

/-- An HTTP response: `res.status(code).send(message)` or a 200 `res.send`. -/
inductive HttpResp (α : Type) where
  | status (code : Nat) (message : String)
  | send (payload : α)
deriving Repr, DecidableEq

abbrev UsersStore := List User
abbrev FoodsStore := List (String × Food)
abbrev OrdersStore := List (String × Order)

/-- `usersCollection.findOne(\x7bemail\x7d)?.role` (optional chaining: `none`
when the user record is absent or has no role). -/
def roleOf (users : UsersStore) (email : String) : Option String :=
  match users.find? (fun u => u.email == email) with
  | some u => u.role
  | none => none

/-- Outcome of a middleware: halt with a status, or call `next()`. -/
inductive GateResult where
  | halt (code : Nat) (message : String)
  | next
deriving Repr, DecidableEq

/-- Outcome of `verifyJWT`: halt, or `next()` with `req.decoded` attached. -/
inductive JwtResult where
  | halt (code : Nat) (message : String)
  | next (decoded : Claims)
deriving Repr, DecidableEq

/-- Response of POST /users: the duplicate message or the insert result. -/
inductive UsersPostResp where
  | message (m : String)
  | inserted (id : String)
deriving Repr, DecidableEq

/-- POST /users (identical logic in both variants): a duplicate email
short-circuits with a message and no insertion. -/
def postUsers (users : UsersStore) (newId : String) (body : User) :
    UsersPostResp × UsersStore :=
  match users.find? (fun u => u.email == body.email) with
  | some _ => (.message "User already exists", users)
  | none => (.inserted newId, users ++ [body])

namespace IndexJs

/-- verifyJWT middleware of src/index.js lines 39-49. -/
def verifyJWT (verify : String → Option Claims) (authHeader : Option String) :
    JwtResult :=
  match authHeader with
  | none => .halt 401 "Unauthorized access 🚫"
  | some h =>
    if h == "" then .halt 401 "Unauthorized access 🚫"
    else
      match bearerToken h with
      | none => .halt 403 "Forbidden access 🚷"
      | some tok =>
        match verify tok with
        | none => .halt 403 "Forbidden access 🚷"
        | some decoded => .next decoded

/-- verifyAdmin middleware of src/index.js lines 52-59. -/
def verifyAdmin (users : UsersStore) (decodedEmail : String) : GateResult :=
  if roleOf users decodedEmail != some "admin"
      && roleOf users decodedEmail != some "super admin" then
    .halt 403 "Admin access only 🚫"
  else .next

/-- GET /foods of src/index.js lines 100-111 (response is always a 200 send
of the filtered array; the catch branch is unreachable in the model). -/
def getFoods (foods : FoodsStore) (category : Option String) : List Food :=
  match category with
  | none => foods.map Prod.snd
  | some c =>
    if c == "" then foods.map Prod.snd
    else (foods.filter (fun p => p.2.category == some (toLowerStr c))).map Prod.snd

/-- GET /foods/:id of src/index.js lines 113-123 (try/catch present: an
invalid id becomes the 500 response of the catch block). -/
def getFood (foods : FoodsStore) (id : String) : HttpResp Food :=
  match parseObjectId id with
  | .error _ => .status 500 "Failed to fetch food"
  | .ok oid =>
    match foods.find? (fun p => p.1 == oid) with
    | none => .status 404 "Food not found"
    | some p => .send p.2

/-- POST /foods of src/index.js lines 125-137; the send payload is the
insertedId. No category normalization happens in this variant. -/
def postFoods (foods : FoodsStore) (newId : String) (body : Food) :
    HttpResp String × FoodsStore :=
  if !truthyStr body.name || !truthyNum body.price || !truthyStr body.image then
    (.status 400 "Name, Price, Image required", foods)
  else
    (.send newId, foods ++ [(newId, body)])

/-- DELETE /foods/:id of src/index.js lines 139-148 (try/catch present; no
existence check: the deleteOne result is sent even when nothing matched). -/
def deleteFood (foods : FoodsStore) (id : String) :
    HttpResp Nat × FoodsStore :=
  match parseObjectId id with
  | .error _ => (.status 500 "Failed to delete food", foods)
  | .ok oid =>
    (.send (if foods.any (fun p => p.1 == oid) then 1 else 0),
     foods.eraseP (fun p => p.1 == oid))

/-- POST /orders of src/index.js lines 151-155: the body is inserted as-is
(no createdAt assignment in this variant). -/
def postOrders (orders : OrdersStore) (newId : String) (body : Order) :
    HttpResp String × OrdersStore :=
  (.send newId, orders ++ [(newId, body)])

/-- GET /orders of src/index.js lines 157-164: any email mismatch is 403;
there is no admin bypass in this variant. -/
def getOrders (orders : OrdersStore) (decodedEmail : String)
    (email : Option String) : HttpResp (List Order) :=
  match email with
  | none => .status 400 "Email query is required"
  | some e =>
    if e == "" then .status 400 "Email query is required"
    else if decodedEmail != e then .status 403 "Forbidden 🚫"
    else .send ((orders.filter (fun p => p.2.buyerEmail == e)).map Prod.snd)

/-- DELETE /orders/:id of src/index.js lines 166-177 (no try/catch: an
invalid id escapes the handler as a thrown error). -/
def deleteOrder (orders : OrdersStore) (users : UsersStore)
    (decodedEmail : String) (id : String) :
    Except JsError (HttpResp Nat × OrdersStore) :=
  match parseObjectId id with
  | .error e => .error e
  | .ok oid =>
    match orders.find? (fun p => p.1 == oid) with
    | none => .ok (.status 404 "Order not found", orders)
    | some p =>
      if p.2.buyerEmail != decodedEmail
          && roleOf users decodedEmail != some "admin" then
        .ok (.status 403 "Forbidden 🚫", orders)
      else
        .ok (.send (if orders.any (fun q => q.1 == oid) then 1 else 0),
             orders.eraseP (fun q => q.1 == oid))

end IndexJs

namespace Part000

/-- verifyJWT middleware of src/unnamed/part_000 lines 39-51. -/
def verifyJWT (verify : String → Option Claims) (authHeader : Option String) :
    JwtResult :=
  match authHeader with
  | none => .halt 401 "Unauthorized 🚫"
  | some h =>
    if h == "" then .halt 401 "Unauthorized 🚫"
    else
      match bearerToken h with
      | none => .halt 403 "Forbidden 🚷"
      | some tok =>
        match verify tok with
        | none => .halt 403 "Forbidden 🚷"
        | some decoded => .next decoded

/-- verifyAdmin middleware of src/unnamed/part_000 lines 54-62. -/
def verifyAdmin (users : UsersStore) (decodedEmail : String) : GateResult :=
  if roleOf users decodedEmail != some "admin"
      && roleOf users decodedEmail != some "super admin" then
    .halt 403 "Admin only 🚫"
  else .next

/-- GET /foods of src/unnamed/part_000 lines 111-125: a category equal to
"all" (exactly) is treated as no filter, unlike the index.js variant. -/
def getFoods (foods : FoodsStore) (category : Option String) : List Food :=
  match category with
  | none => foods.map Prod.snd
  | some c =>
    if c == "" || c == "all" then foods.map Prod.snd
    else (foods.filter (fun p => p.2.category == some (toLowerStr c))).map Prod.snd

/-- GET /foods/:id of src/unnamed/part_000 lines 128-139 (try/catch
present). -/
def getFood (foods : FoodsStore) (id : String) : HttpResp Food :=
  match parseObjectId id with
  | .error _ => .status 500 "Failed to fetch food"
  | .ok oid =>
    match foods.find? (fun p => p.1 == oid) with
    | none => .status 404 "Food not found"
    | some p => .send p.2

/-- POST /foods of src/unnamed/part_000 lines 142-158: after the presence
check, `food.category = food.category.toLowerCase()` throws a TypeError when
category is absent, caught by the handler's catch block as a 500 with
nothing persisted. -/
def postFoods (foods : FoodsStore) (newId : String) (body : Food) :
    HttpResp String × FoodsStore :=
  if !truthyStr body.name || !truthyNum body.price || !truthyStr body.image then
    (.status 400 "Missing fields", foods)
  else
    match body.category with
    | none => (.status 500 "Failed to add food", foods)
    | some c =>
      (.send newId,
       foods ++ [(newId, { body with category := some (toLowerStr c) })])

/-- DELETE /foods/:id of src/unnamed/part_000 lines 161-166: no try/catch,
so an invalid id escapes the handler; no existence check either. -/
def deleteFood (foods : FoodsStore) (id : String) :
    Except JsError (HttpResp Nat × FoodsStore) :=
  match parseObjectId id with
  | .error e => .error e
  | .ok oid =>
    .ok (.send (if foods.any (fun p => p.1 == oid) then 1 else 0),
         foods.eraseP (fun p => p.1 == oid))

/-- POST /orders of src/unnamed/part_000 lines 170-176: the server
overwrites createdAt with the current time before inserting. -/
def postOrders (orders : OrdersStore) (newId : String) (now : Nat)
    (body : Order) : HttpResp String × OrdersStore :=
  (.send newId, orders ++ [(newId, { body with createdAt := some now })])

/-- GET /orders of src/unnamed/part_000 lines 178-193: owner or admin. -/
def getOrders (orders : OrdersStore) (users : UsersStore)
    (decodedEmail : String) (email : Option String) : HttpResp (List Order) :=
  if email != some decodedEmail
      && roleOf users decodedEmail != some "admin" then
    .status 403 "Forbidden"
  else
    .send ((orders.filter
      (fun p => (some p.2.buyerEmail : Option String) == email)).map Prod.snd)

/-- DELETE /orders/:id of src/unnamed/part_000 lines 195-211 (no try/catch:
an invalid id escapes the handler as a thrown error). -/
def deleteOrder (orders : OrdersStore) (users : UsersStore)
    (decodedEmail : String) (id : String) :
    Except JsError (HttpResp Nat × OrdersStore) :=
  match parseObjectId id with
  | .error e => .error e
  | .ok oid =>
    match orders.find? (fun p => p.1 == oid) with
    | none => .ok (.status 404 "Order not found", orders)
    | some p =>
      if p.2.buyerEmail != decodedEmail
          && roleOf users decodedEmail != some "admin" then
        .ok (.status 403 "Forbidden", orders)
      else
        .ok (.send (if orders.any (fun q => q.1 == oid) then 1 else 0),
             orders.eraseP (fun q => q.1 == oid))

end Part000

/-- With pairwise-distinct keys, once the entry with key `k` is erased no
entry with key `k` can be found any more. -/
theorem find?_eraseP_eq_none {β : Type} (l : List (String × β)) (k : String)
    (hnd : (l.map Prod.fst).Nodup) :
    (l.eraseP (fun q => q.1 == k)).find? (fun q => q.1 == k) = none := by
  induction l with
  | nil => rfl
  | cons a t ih =>
    rw [List.map_cons, List.nodup_cons] at hnd
    by_cases ha : a.1 = k
    · rw [List.eraseP_cons_of_pos (by simp [ha]), List.find?_eq_none]
      intro x hx
      simp only [beq_iff_eq]
      intro hxk
      exact hnd.1 (by rw [ha, ← hxk]; exact List.mem_map_of_mem Prod.fst hx)
    · rw [List.eraseP_cons_of_neg (by simp [ha]),
        List.find?_cons_of_neg _ (by simp [ha])]
      exact ih hnd.2

/-- C4 (confirmed): on a protected route a missing (or empty, hence falsy)
Authorization header halts with 401; a present nonempty header whose token
fails verification halts with the distinct status 403; and on successful
verification the middleware attaches the decoded claims and calls next —
in both variants. -/
theorem c4_verifyJWT_outcomes (verify : String → Option Claims) :
    (IndexJs.verifyJWT verify none = .halt 401 "Unauthorized access 🚫"
      ∧ Part000.verifyJWT verify none = .halt 401 "Unauthorized 🚫")
    ∧ (∀ h, h ≠ "" →
        (∀ tok, bearerToken h = some tok → verify tok = none) →
        IndexJs.verifyJWT verify (some h) = .halt 403 "Forbidden access 🚷"
        ∧ Part000.verifyJWT verify (some h) = .halt 403 "Forbidden 🚷")
    ∧ (∀ h tok c, h ≠ "" → bearerToken h = some tok → verify tok = some c →
        IndexJs.verifyJWT verify (some h) = .next c
        ∧ Part000.verifyJWT verify (some h) = .next c) := by
  refine ⟨⟨rfl, rfl⟩, ?_, ?_⟩
  · intro h hne hfail
    have hne' : (h == "") = false := beq_eq_false_iff_ne.mpr hne
    rcases hb : bearerToken h with _ | tok
    · constructor <;> simp [IndexJs.verifyJWT, Part000.verifyJWT, hne', hb]
    · have hv := hfail tok hb
      constructor <;> simp [IndexJs.verifyJWT, Part000.verifyJWT, hne', hb, hv]
  · intro h tok c hne hb hv
    have hne' : (h == "") = false := beq_eq_false_iff_ne.mpr hne
    constructor <;> simp [IndexJs.verifyJWT, Part000.verifyJWT, hne', hb, hv]

/-- C4 witness: a concrete missing header, failing token, and succeeding
token, on both variants. -/
theorem c4_verifyJWT_outcomes_witness :
    IndexJs.verifyJWT (fun t => if t == "good" then some ⟨"a@b"⟩ else none)
        (some "Bearer good") = .next ⟨"a@b"⟩
    ∧ Part000.verifyJWT (fun t => if t == "good" then some ⟨"a@b"⟩ else none)
        (some "Bearer good") = .next ⟨"a@b"⟩ :=
  (c4_verifyJWT_outcomes _).2.2 "Bearer good" "good" ⟨"a@b"⟩
    (by decide) (by decide) (by decide)

/-- C5 (confirmed): a POST /foods body missing name, price, or image gets a
400 response and the foods collection is unchanged, in both variants. -/
theorem c5_postFoods_validation (foods : FoodsStore) (newId : String)
    (body : Food)
    (h : body.name = none ∨ body.price = none ∨ body.image = none) :
    IndexJs.postFoods foods newId body
      = (.status 400 "Name, Price, Image required", foods)
    ∧ Part000.postFoods foods newId body
      = (.status 400 "Missing fields", foods) := by
  have hcond : (!truthyStr body.name || !truthyNum body.price
      || !truthyStr body.image) = true := by
    rcases h with h | h | h <;> simp [h, truthyStr, truthyNum]
  constructor <;> simp [IndexJs.postFoods, Part000.postFoods, hcond]

/-- C5 witness: a body without a name is rejected with 400 and an empty
store stays empty. -/
theorem c5_postFoods_validation_witness :
    IndexJs.postFoods [] "aaaaaaaaaaaaaaaaaaaaaaaa"
        ⟨none, some 10, some "url", none⟩
      = (.status 400 "Name, Price, Image required", [])
    ∧ Part000.postFoods [] "aaaaaaaaaaaaaaaaaaaaaaaa"
        ⟨none, some 10, some "url", none⟩
      = (.status 400 "Missing fields", []) :=
  c5_postFoods_validation [] "aaaaaaaaaaaaaaaaaaaaaaaa"
    ⟨none, some 10, some "url", none⟩ (Or.inl rfl)

/-- C6 (confirmed): registering the same email twice is idempotent — the
first call inserts, the second call returns the already-exists message and
performs no insertion, and exactly one record with that email remains. -/
theorem c6_postUsers_idempotent (users : UsersStore) (id1 id2 : String)
    (body : User) (h : users.find? (fun u => u.email == body.email) = none) :
    postUsers users id1 body = (.inserted id1, users ++ [body])
    ∧ postUsers (users ++ [body]) id2 body
      = (.message "User already exists", users ++ [body])
    ∧ ((users ++ [body]).filter (fun u => u.email == body.email)).length = 1 := by
  have hall : ∀ u ∈ users, ¬ (u.email == body.email) = true :=
    List.find?_eq_none.mp h
  refine ⟨?_, ?_, ?_⟩
  · simp [postUsers, h]
  · have hfind : (users ++ [body]).find? (fun u => u.email == body.email)
        = some body := by
      rw [List.find?_append, h]
      simp
    simp [postUsers, hfind]
  · rw [List.filter_append]
    have hnil : users.filter (fun u => u.email == body.email) = [] :=
      List.filter_eq_nil_iff.mpr hall
    simp [hnil]

/-- C6 witness: registering the same concrete email twice. -/
theorem c6_postUsers_idempotent_witness :
    postUsers [] "id1" ⟨"a@b", none⟩ = (.inserted "id1", [⟨"a@b", none⟩])
    ∧ postUsers [⟨"a@b", none⟩] "id2" ⟨"a@b", none⟩
      = (.message "User already exists", [⟨"a@b", none⟩])
    ∧ (([(⟨"a@b", none⟩ : User)]).filter (fun u => u.email == "a@b")).length
      = 1 :=
  c6_postUsers_idempotent [] "id1" "id2" ⟨"a@b", none⟩ rfl

/-- C10 (confirmed): the ownership bypass on order read/delete tests the
role for exactly "admin", stricter than the admin gate: a requester whose
stored role is "super admin" passes verifyAdmin, yet when their email
differs from the target buyerEmail both DELETE /orders/:id variants respond
403, and the part_000 GET /orders responds 403 for a foreign email query. -/
theorem c10_superadmin_order_access (orders : OrdersStore)
    (users : UsersStore) (decodedEmail id X : String) (entry : String × Order)
    (hrole : roleOf users decodedEmail = some "super admin")
    (hid : validObjectId id = true)
    (hfind : orders.find? (fun p => p.1 == id) = some entry)
    (howner : entry.2.buyerEmail ≠ decodedEmail)
    (hX : X ≠ decodedEmail) :
    IndexJs.verifyAdmin users decodedEmail = .next
    ∧ Part000.verifyAdmin users decodedEmail = .next
    ∧ IndexJs.deleteOrder orders users decodedEmail id
      = .ok (.status 403 "Forbidden 🚫", orders)
    ∧ Part000.deleteOrder orders users decodedEmail id
      = .ok (.status 403 "Forbidden", orders)
    ∧ Part000.getOrders orders users decodedEmail (some X)
      = .status 403 "Forbidden" := by
  have howner' : (entry.2.buyerEmail == decodedEmail) = false :=
    beq_eq_false_iff_ne.mpr howner
  refine ⟨?_, ?_, ?_, ?_, ?_⟩
  · simp [IndexJs.verifyAdmin, hrole]
  · simp [Part000.verifyAdmin, hrole]
  · simp [IndexJs.deleteOrder, parseObjectId, hid, hfind, howner', hrole, howner]
  · simp [Part000.deleteOrder, parseObjectId, hid, hfind, howner', hrole, howner]
  · simp [Part000.getOrders, hrole, hX]

/-- C10 witness: a concrete super admin deleting and reading another
buyer's order. -/
theorem c10_superadmin_order_access_witness :
    IndexJs.verifyAdmin [⟨"sa@x", some "super admin"⟩] "sa@x" = .next
    ∧ Part000.verifyAdmin [⟨"sa@x", some "super admin"⟩] "sa@x" = .next
    ∧ IndexJs.deleteOrder [("aaaaaaaaaaaaaaaaaaaaaaaa", ⟨"buyer@x", [], none⟩)]
        [⟨"sa@x", some "super admin"⟩] "sa@x" "aaaaaaaaaaaaaaaaaaaaaaaa"
      = .ok (.status 403 "Forbidden 🚫",
          [("aaaaaaaaaaaaaaaaaaaaaaaa", ⟨"buyer@x", [], none⟩)])
    ∧ Part000.deleteOrder [("aaaaaaaaaaaaaaaaaaaaaaaa", ⟨"buyer@x", [], none⟩)]
        [⟨"sa@x", some "super admin"⟩] "sa@x" "aaaaaaaaaaaaaaaaaaaaaaaa"
      = .ok (.status 403 "Forbidden",
          [("aaaaaaaaaaaaaaaaaaaaaaaa", ⟨"buyer@x", [], none⟩)])
    ∧ Part000.getOrders [("aaaaaaaaaaaaaaaaaaaaaaaa", ⟨"buyer@x", [], none⟩)]
        [⟨"sa@x", some "super admin"⟩] "sa@x" (some "buyer@x")
      = .status 403 "Forbidden" :=
  c10_superadmin_order_access
    [("aaaaaaaaaaaaaaaaaaaaaaaa", ⟨"buyer@x", [], none⟩)]
    [⟨"sa@x", some "super admin"⟩] "sa@x" "aaaaaaaaaaaaaaaaaaaaaaaa"
    "buyer@x" ("aaaaaaaaaaaaaaaaaaaaaaaa", ⟨"buyer@x", [], none⟩)
    (by decide) (by decide) (by decide) (by decide) (by decide)

/-- C1 counterexample: in the index.js variant GET /orders has no admin
bypass — a requester whose stored role is admin asking for another buyer's
orders receives 403 instead of that buyer's order array. -/
theorem c1_getOrders_admin_counterexample :
    roleOf [⟨"admin@x", some "admin"⟩] "admin@x" = some "admin"
    ∧ IndexJs.getOrders [("aaaaaaaaaaaaaaaaaaaaaaaa", ⟨"buyer@x", [], none⟩)]
        "admin@x" (some "buyer@x")
      = .status 403 "Forbidden 🚫" := by decide

/-- C1 (amended): in the part_000 variant the claim holds — for a query
email X different from the authenticated email, a non-admin receives 403
and an admin receives exactly the orders whose buyerEmail equals X; in the
index.js variant every such request receives 403 regardless of role. -/
theorem c1_getOrders_ownership (orders : OrdersStore) (users : UsersStore)
    (decodedEmail X : String) (hne : X ≠ decodedEmail) (hX : X ≠ "") :
    (roleOf users decodedEmail ≠ some "admin" →
      Part000.getOrders orders users decodedEmail (some X)
        = .status 403 "Forbidden")
    ∧ (roleOf users decodedEmail = some "admin" →
      Part000.getOrders orders users decodedEmail (some X)
        = .send ((orders.filter (fun p => p.2.buyerEmail == X)).map Prod.snd))
    ∧ IndexJs.getOrders orders decodedEmail (some X)
      = .status 403 "Forbidden 🚫" := by
  have hX' : (X == "") = false := beq_eq_false_iff_ne.mpr hX
  have hne2 : decodedEmail ≠ X := fun h => hne h.symm
  refine ⟨?_, ?_, ?_⟩
  · intro hrole
    simp [Part000.getOrders, hne, hrole]
  · intro hrole
    simp [Part000.getOrders, hrole]
  · simp [IndexJs.getOrders, hX', hne2]

/-- C1 witness: a concrete admin fetching another buyer's orders in the
part_000 variant receives exactly that buyer's orders, while the same
request in the index.js variant receives 403. -/
theorem c1_getOrders_ownership_witness :
    Part000.getOrders
        [("aaaaaaaaaaaaaaaaaaaaaaaa", ⟨"buyer@x", ["pizza"], some 5⟩),
         ("bbbbbbbbbbbbbbbbbbbbbbbb", ⟨"other@x", [], none⟩)]
        [⟨"admin@x", some "admin"⟩] "admin@x" (some "buyer@x")
      = .send [⟨"buyer@x", ["pizza"], some 5⟩]
    ∧ IndexJs.getOrders
        [("aaaaaaaaaaaaaaaaaaaaaaaa", ⟨"buyer@x", ["pizza"], some 5⟩)]
        "admin@x" (some "buyer@x")
      = .status 403 "Forbidden 🚫" := by
  have h := c1_getOrders_ownership
    [("aaaaaaaaaaaaaaaaaaaaaaaa", ⟨"buyer@x", ["pizza"], some 5⟩),
     ("bbbbbbbbbbbbbbbbbbbbbbbb", ⟨"other@x", [], none⟩)]
    [⟨"admin@x", some "admin"⟩] "admin@x" "buyer@x" (by decide) (by decide)
  have h2 := c1_getOrders_ownership
    [("aaaaaaaaaaaaaaaaaaaaaaaa", ⟨"buyer@x", ["pizza"], some 5⟩)]
    [⟨"admin@x", some "admin"⟩] "admin@x" "buyer@x" (by decide) (by decide)
  exact ⟨(h.2.1 (by decide)).trans (by decide), h2.2.2⟩

/-- C8 counterexample: in the index.js variant POST /orders inserts the
submitted body unchanged — an order submitted without createdAt is persisted
with no creation timestamp at all. -/
theorem c8_postOrders_counterexample :
    IndexJs.postOrders [] "aaaaaaaaaaaaaaaaaaaaaaaa" ⟨"b@x", ["pizza"], none⟩
      = (.send "aaaaaaaaaaaaaaaaaaaaaaaa",
         [("aaaaaaaaaaaaaaaaaaaaaaaa", ⟨"b@x", ["pizza"], none⟩)])
    ∧ (Order.mk "b@x" ["pizza"] none).createdAt = none := by decide

/-- C8 (amended): only the part_000 variant assigns the server timestamp —
there the persisted order carries createdAt equal to the server clock
whatever the body submitted; the index.js variant persists the body
unchanged, keeping whatever createdAt (possibly none) the client sent. -/
theorem c8_postOrders_createdAt (orders : OrdersStore) (newId : String)
    (now : Nat) (body : Order) :
    Part000.postOrders orders newId now body
      = (.send newId, orders ++ [(newId, { body with createdAt := some now })])
    ∧ (∀ t, Part000.postOrders orders newId now { body with createdAt := t }
        = Part000.postOrders orders newId now body)
    ∧ IndexJs.postOrders orders newId body
      = (.send newId, orders ++ [(newId, body)]) :=
  ⟨rfl, fun _ => rfl, rfl⟩

/-- C9 counterexample: in the index.js variant a category query equal to
"all" is not treated as "no filter" — it filters for documents whose stored
category is literally "all", so a store holding one pizza yields an empty
result instead of all documents. -/
theorem c9_getFoods_all_counterexample :
    IndexJs.getFoods
        [("aaaaaaaaaaaaaaaaaaaaaaaa",
          ⟨some "Margherita", some 10, some "url", some "pizza"⟩)]
        (some "all")
      = []
    ∧ ([("aaaaaaaaaaaaaaaaaaaaaaaa",
          (⟨some "Margherita", some 10, some "url", some "pizza"⟩ : Food))]).map
        Prod.snd
      = [⟨some "Margherita", some 10, some "url", some "pizza"⟩] := by decide

/-- C9 (amended): an absent or empty category returns all documents
unfiltered in both variants, and a category other than "" and "all" returns
exactly the documents whose stored category equals the lower-cased query;
but "all" means "no filter" only in the part_000 variant — the index.js
variant treats "all" as an ordinary category value and filters for it. -/
theorem c9_getFoods_filter (foods : FoodsStore) (c : String)
    (hne : c ≠ "") (hall : c ≠ "all") :
    Part000.getFoods foods none = foods.map Prod.snd
    ∧ Part000.getFoods foods (some "") = foods.map Prod.snd
    ∧ Part000.getFoods foods (some "all") = foods.map Prod.snd
    ∧ IndexJs.getFoods foods none = foods.map Prod.snd
    ∧ IndexJs.getFoods foods (some "") = foods.map Prod.snd
    ∧ IndexJs.getFoods foods (some "all")
      = (foods.filter (fun p => p.2.category == some "all")).map Prod.snd
    ∧ Part000.getFoods foods (some c)
      = (foods.filter (fun p => p.2.category == some (toLowerStr c))).map
          Prod.snd
    ∧ IndexJs.getFoods foods (some c)
      = (foods.filter (fun p => p.2.category == some (toLowerStr c))).map
          Prod.snd := by
  have hne' : (c == "") = false := beq_eq_false_iff_ne.mpr hne
  have hall' : (c == "all") = false := beq_eq_false_iff_ne.mpr hall
  have hlow : toLowerStr "all" = "all" := by decide
  refine ⟨rfl, ?_, ?_, rfl, ?_, ?_, ?_, ?_⟩
  · simp [Part000.getFoods]
  · simp [Part000.getFoods]
  · simp [IndexJs.getFoods]
  · simp [IndexJs.getFoods, hlow]
  · simp [Part000.getFoods, hne', hall']
  · simp [IndexJs.getFoods, hne']

/-- C9 witness: a concrete store holding one pizza and one food whose
category is literally "all": querying "Pizza" matches the pizza in both
variants, while querying "all" returns everything in part_000 but only the
literal "all" document in index.js. -/
theorem c9_getFoods_filter_witness :
    IndexJs.getFoods
        [("aaaaaaaaaaaaaaaaaaaaaaaa",
          ⟨some "Margherita", some 10, some "u1", some "pizza"⟩),
         ("bbbbbbbbbbbbbbbbbbbbbbbb",
          ⟨some "Combo", some 20, some "u2", some "all"⟩)]
        (some "Pizza")
      = [⟨some "Margherita", some 10, some "u1", some "pizza"⟩]
    ∧ Part000.getFoods
        [("aaaaaaaaaaaaaaaaaaaaaaaa",
          ⟨some "Margherita", some 10, some "u1", some "pizza"⟩),
         ("bbbbbbbbbbbbbbbbbbbbbbbb",
          ⟨some "Combo", some 20, some "u2", some "all"⟩)]
        (some "all")
      = [⟨some "Margherita", some 10, some "u1", some "pizza"⟩,
         ⟨some "Combo", some 20, some "u2", some "all"⟩]
    ∧ IndexJs.getFoods
        [("aaaaaaaaaaaaaaaaaaaaaaaa",
          ⟨some "Margherita", some 10, some "u1", some "pizza"⟩),
         ("bbbbbbbbbbbbbbbbbbbbbbbb",
          ⟨some "Combo", some 20, some "u2", some "all"⟩)]
        (some "all")
      = [⟨some "Combo", some 20, some "u2", some "all"⟩] := by
  have h := c9_getFoods_filter
    [("aaaaaaaaaaaaaaaaaaaaaaaa",
      ⟨some "Margherita", some 10, some "u1", some "pizza"⟩),
     ("bbbbbbbbbbbbbbbbbbbbbbbb",
      ⟨some "Combo", some 20, some "u2", some "all"⟩)]
    "Pizza" (by decide) (by decide)
  exact ⟨h.2.2.2.2.2.2.2.trans (by decide),
    h.2.2.1.trans (by decide),
    h.2.2.2.2.2.1.trans (by decide)⟩

/-- C2 counterexample: deleting an absent food id (both variants) returns a
successful delete acknowledgment with zero count, not NotFound 404. -/
theorem c2_deleteFood_counterexample :
    IndexJs.deleteFood [] "aaaaaaaaaaaaaaaaaaaaaaaa" = (.send 0, [])
    ∧ Part000.deleteFood [] "aaaaaaaaaaaaaaaaaaaaaaaa" = .ok (.send 0, []) := by
  decide

/-- C2 (amended): DELETE /orders/:id behaves as claimed — 404 when the id is
absent, and removal plus a count-1 acknowledgment when it is present and the
requester owns it; but DELETE /foods/:id never returns 404 — it always
returns the deletion acknowledgment, with count 0 when the id is absent and
count 1 (with the document removed) when present. -/
theorem c2_deleteById (orders : OrdersStore) (foods : FoodsStore)
    (users : UsersStore) (decodedEmail id : String)
    (hid : validObjectId id = true) :
    (orders.find? (fun p => p.1 == id) = none →
      IndexJs.deleteOrder orders users decodedEmail id
        = .ok (.status 404 "Order not found", orders)
      ∧ Part000.deleteOrder orders users decodedEmail id
        = .ok (.status 404 "Order not found", orders))
    ∧ (∀ entry, orders.find? (fun p => p.1 == id) = some entry →
        entry.2.buyerEmail = decodedEmail →
        (orders.map Prod.fst).Nodup →
        IndexJs.deleteOrder orders users decodedEmail id
          = .ok (.send 1, orders.eraseP (fun q => q.1 == id))
        ∧ Part000.deleteOrder orders users decodedEmail id
          = .ok (.send 1, orders.eraseP (fun q => q.1 == id))
        ∧ (orders.eraseP (fun q => q.1 == id)).find? (fun q => q.1 == id)
          = none)
    ∧ (foods.find? (fun p => p.1 == id) = none →
        IndexJs.deleteFood foods id = (.send 0, foods)
        ∧ Part000.deleteFood foods id = .ok (.send 0, foods))
    ∧ (∀ entry, foods.find? (fun p => p.1 == id) = some entry →
        (foods.map Prod.fst).Nodup →
        IndexJs.deleteFood foods id
          = (.send 1, foods.eraseP (fun q => q.1 == id))
        ∧ Part000.deleteFood foods id
          = .ok (.send 1, foods.eraseP (fun q => q.1 == id))
        ∧ (foods.eraseP (fun q => q.1 == id)).find? (fun q => q.1 == id)
          = none) := by
  refine ⟨?_, ?_, ?_, ?_⟩
  · intro hfind
    constructor <;>
      simp [IndexJs.deleteOrder, Part000.deleteOrder, parseObjectId, hid, hfind]
  · intro entry hfind howner hnd
    have hmem : entry ∈ orders := List.mem_of_find?_eq_some hfind
    have hpe := List.find?_some hfind
    have hany : orders.any (fun q => q.1 == id) = true :=
      List.any_eq_true.mpr ⟨entry, hmem, hpe⟩
    have howner' : (entry.2.buyerEmail == decodedEmail) = true :=
      beq_iff_eq.mpr howner
    refine ⟨?_, ?_, find?_eraseP_eq_none orders id hnd⟩ <;>
      simp [IndexJs.deleteOrder, Part000.deleteOrder, parseObjectId, hid,
        hfind, howner', howner, hany]
  · intro hfind
    have hall : ∀ q ∈ foods, ¬ (q.1 == id) = true := List.find?_eq_none.mp hfind
    have hany : foods.any (fun q => q.1 == id) = false :=
      List.any_eq_false.mpr hall
    have herase : foods.eraseP (fun q => q.1 == id) = foods :=
      List.eraseP_of_forall_not hall
    constructor <;>
      simp [IndexJs.deleteFood, Part000.deleteFood, parseObjectId, hid, hany,
        herase]
  · intro entry hfind hnd
    have hmem : entry ∈ foods := List.mem_of_find?_eq_some hfind
    have hpe := List.find?_some hfind
    have hany : foods.any (fun q => q.1 == id) = true :=
      List.any_eq_true.mpr ⟨entry, hmem, hpe⟩
    refine ⟨?_, ?_, find?_eraseP_eq_none foods id hnd⟩ <;>
      simp [IndexJs.deleteFood, Part000.deleteFood, parseObjectId, hid, hany]

/-- C2 witness: concrete stores — an absent order id gives 404, a present
owner-deleted order and a present food give count 1 with the entry removed,
and an absent food id gives the count-0 acknowledgment. -/
theorem c2_deleteById_witness :
    (IndexJs.deleteOrder [] [] "b@x" "aaaaaaaaaaaaaaaaaaaaaaaa"
      = .ok (.status 404 "Order not found", []))
    ∧ (Part000.deleteOrder [("aaaaaaaaaaaaaaaaaaaaaaaa", ⟨"b@x", [], none⟩)]
        [] "b@x" "aaaaaaaaaaaaaaaaaaaaaaaa"
      = .ok (.send 1, []))
    ∧ (IndexJs.deleteFood [] "aaaaaaaaaaaaaaaaaaaaaaaa" = (.send 0, []))
    ∧ (IndexJs.deleteFood
        [("aaaaaaaaaaaaaaaaaaaaaaaa", ⟨some "P", some 1, some "u", none⟩)]
        "aaaaaaaaaaaaaaaaaaaaaaaa"
      = (.send 1, [])) := by
  have h1 := c2_deleteById [] [] [] "b@x" "aaaaaaaaaaaaaaaaaaaaaaaa" (by decide)
  have h2 := c2_deleteById [("aaaaaaaaaaaaaaaaaaaaaaaa", ⟨"b@x", [], none⟩)]
    [("aaaaaaaaaaaaaaaaaaaaaaaa", ⟨some "P", some 1, some "u", none⟩)]
    [] "b@x" "aaaaaaaaaaaaaaaaaaaaaaaa" (by decide)
  refine ⟨h1.1 rfl |>.1, ?_, h1.2.2.1 rfl |>.1, ?_⟩
  · exact (h2.2.1 ("aaaaaaaaaaaaaaaaaaaaaaaa", ⟨"b@x", [], none⟩)
      (by decide) (by decide) (by decide)).2.1.trans (by decide)
  · exact (h2.2.2.2 ("aaaaaaaaaaaaaaaaaaaaaaaa", ⟨some "P", some 1, some "u", none⟩)
      (by decide) (by decide)).1.trans (by decide)

/-- C3 counterexample: the handlers that lack a try/catch let the invalid
document id error escape instead of converting it to a response — DELETE
/orders/:id in index.js and DELETE /foods/:id in part_000 both surface the
thrown InvalidId error for the non-hex id "xyz". -/
theorem c3_uncaught_counterexample :
    IndexJs.deleteOrder [] [] "a@b" "xyz" = .error (.invalidObjectId "xyz")
    ∧ Part000.deleteFood [] "xyz" = .error (.invalidObjectId "xyz") := by
  decide

/-- C3 (amended): only the handlers wrapped in try/catch convert an invalid
document id into a reported HTTP error (500 with a short message): GET
/foods/:id in both variants and DELETE /foods/:id in index.js do; but
DELETE /orders/:id in both variants and DELETE /foods/:id in part_000 have
no handler-boundary catch, so the thrown InvalidId error propagates out of
the handler instead of becoming a response. -/
theorem c3_invalidId_handling (foods : FoodsStore) (orders : OrdersStore)
    (users : UsersStore) (decodedEmail id : String)
    (hbad : validObjectId id = false) :
    IndexJs.getFood foods id = .status 500 "Failed to fetch food"
    ∧ Part000.getFood foods id = .status 500 "Failed to fetch food"
    ∧ IndexJs.deleteFood foods id = (.status 500 "Failed to delete food", foods)
    ∧ IndexJs.deleteOrder orders users decodedEmail id
      = .error (.invalidObjectId id)
    ∧ Part000.deleteFood foods id = .error (.invalidObjectId id)
    ∧ Part000.deleteOrder orders users decodedEmail id
      = .error (.invalidObjectId id) := by
  refine ⟨?_, ?_, ?_, ?_, ?_, ?_⟩ <;>
    simp [IndexJs.getFood, Part000.getFood, IndexJs.deleteFood,
      IndexJs.deleteOrder, Part000.deleteFood, Part000.deleteOrder,
      parseObjectId, hbad]

/-- C3 witness: the invalid id "xyz" on concrete empty stores. -/
theorem c3_invalidId_handling_witness :
    IndexJs.getFood [] "xyz" = .status 500 "Failed to fetch food"
    ∧ Part000.getFood [] "xyz" = .status 500 "Failed to fetch food"
    ∧ IndexJs.deleteFood [] "xyz" = (.status 500 "Failed to delete food", [])
    ∧ IndexJs.deleteOrder [] [] "a@b" "xyz" = .error (.invalidObjectId "xyz")
    ∧ Part000.deleteFood [] "xyz" = .error (.invalidObjectId "xyz")
    ∧ Part000.deleteOrder [] [] "a@b" "xyz" = .error (.invalidObjectId "xyz") :=
  c3_invalidId_handling [] [] [] "a@b" "xyz" (by decide)

/-- C7 counterexample: the index.js variant stores the submitted category
as-is — a food created with category "PIZZA" is persisted and read back with
category "PIZZA", which is not the lower-cased form. -/
theorem c7_category_counterexample :
    IndexJs.postFoods [] "aaaaaaaaaaaaaaaaaaaaaaaa"
        ⟨some "Margherita", some 10, some "url", some "PIZZA"⟩
      = (.send "aaaaaaaaaaaaaaaaaaaaaaaa",
         [("aaaaaaaaaaaaaaaaaaaaaaaa",
           ⟨some "Margherita", some 10, some "url", some "PIZZA"⟩)])
    ∧ IndexJs.getFood
        [("aaaaaaaaaaaaaaaaaaaaaaaa",
          ⟨some "Margherita", some 10, some "url", some "PIZZA"⟩)]
        "aaaaaaaaaaaaaaaaaaaaaaaa"
      = .send ⟨some "Margherita", some 10, some "url", some "PIZZA"⟩
    ∧ (some "PIZZA" : Option String) ≠ some (toLowerStr "PIZZA") := by decide

/-- C7 (amended): only the part_000 variant lower-cases the category — a
successful POST /foods there with a provided category persists the document
with category lower-cased and the other submitted fields unchanged, and a
subsequent GET /foods/:id returns that document; the index.js variant
persists the submitted document unchanged, category included. -/
theorem c7_category_lowercase (foods : FoodsStore) (newId c : String)
    (body : Food)
    (hname : truthyStr body.name = true) (hprice : truthyNum body.price = true)
    (himage : truthyStr body.image = true) (hcat : body.category = some c)
    (hid : validObjectId newId = true)
    (hfresh : foods.find? (fun p => p.1 == newId) = none) :
    Part000.postFoods foods newId body
      = (.send newId,
         foods ++ [(newId, { body with category := some (toLowerStr c) })])
    ∧ Part000.getFood
        (foods ++ [(newId, { body with category := some (toLowerStr c) })])
        newId
      = .send { body with category := some (toLowerStr c) }
    ∧ IndexJs.postFoods foods newId body
      = (.send newId, foods ++ [(newId, body)]) := by
  have hcond : (!truthyStr body.name || !truthyNum body.price
      || !truthyStr body.image) = false := by
    simp [hname, hprice, himage]
  refine ⟨?_, ?_, ?_⟩
  · simp [Part000.postFoods, hcond, hcat]
  · have hfind : (foods
        ++ [(newId, { body with category := some (toLowerStr c) })]).find?
          (fun p => p.1 == newId)
        = some (newId, { body with category := some (toLowerStr c) }) := by
      rw [List.find?_append, hfresh]
      simp
    simp [Part000.getFood, parseObjectId, hid, hfind]
  · simp [IndexJs.postFoods, hcond]

/-- C7 witness: a concrete food with category "PIZZA" round-trips through
part_000 POST then GET with category "pizza" and the other fields intact. -/
theorem c7_category_lowercase_witness :
    Part000.postFoods [] "aaaaaaaaaaaaaaaaaaaaaaaa"
        ⟨some "Margherita", some 10, some "url", some "PIZZA"⟩
      = (.send "aaaaaaaaaaaaaaaaaaaaaaaa",
         [("aaaaaaaaaaaaaaaaaaaaaaaa",
           ⟨some "Margherita", some 10, some "url", some "pizza"⟩)])
    ∧ Part000.getFood
        [("aaaaaaaaaaaaaaaaaaaaaaaa",
          ⟨some "Margherita", some 10, some "url", some "pizza"⟩)]
        "aaaaaaaaaaaaaaaaaaaaaaaa"
      = .send ⟨some "Margherita", some 10, some "url", some "pizza"⟩ := by
  have h := c7_category_lowercase [] "aaaaaaaaaaaaaaaaaaaaaaaa" "PIZZA"
    ⟨some "Margherita", some 10, some "url", some "PIZZA"⟩
    (by decide) (by decide) (by decide) (by decide) (by decide) (by decide)
  exact ⟨h.1.trans (by decide), (by decide : _ = _).symm.trans h.2.1 |>.trans (by decide)⟩

end FoodServer
